import Mathlib

/-!
Shallow embedding of the forms repository (SvelteKit intake-form app):
the auth library (constant-time password check, session cookies), the
Google Sheets/Drive REST helpers (token cache, folder creation, file
upload), and the HTTP handlers for form submission and the submissions
dashboard, together with theorems settling the specification claims.
-/

namespace Forms

/-! ### Auth library (src/lib/auth.ts)

Strings are modelled as lists of UTF-16 code units (`List Nat`) where the
code indexes characters by `charCodeAt`, and as `List Char` where it
builds cookie values. -/

/-- Loop body of constantTimeCompare: `result |= a.charCodeAt(i) ^ b.charCodeAt(i)`
folded left over the paired code units, starting from `result = 0`. -/
def ctcLoop (acc : Nat) : List Nat → List Nat → Nat
  | a :: as, b :: bs => ctcLoop (acc ||| (a ^^^ b)) as bs
  | _, _ => acc

/-- constantTimeCompare from src/lib/auth.ts: returns false on a length
mismatch, otherwise ORs together the XORs of corresponding code units and
tests the accumulated result against zero. -/
def constantTimeCompare (a b : List Nat) : Bool :=
  if a.length ≠ b.length then false
  else ctcLoop 0 a b == 0

/-- validatePassword from src/lib/auth.ts: delegates to constantTimeCompare. -/
def validatePassword (input stored : List Nat) : Bool :=
  constantTimeCompare input stored

/-- Cost model for constantTimeCompare: the number of loop iterations the
function performs on inputs `a` and `b` (zero on the early length-mismatch
return, `a.length` otherwise). -/
def ctcSteps (a b : List Nat) : Nat :=
  if a.length ≠ b.length then 0 else a.length

/-- Lowercase hex digit for a value below 16, as produced by
`byte.toString(16)`. -/
def hexDigit (n : Nat) : Char :=
  if n < 10 then Char.ofNat (48 + n) else Char.ofNat (87 + n)

/-- One byte rendered by toString(16), left-padded to two characters with
a zero, for a byte value below 256: a two-character lowercase hex string. -/
def byteToHex (b : Nat) : List Char :=
  if b < 16 then ['0', hexDigit b] else [hexDigit (b / 16), hexDigit (b % 16)]

/-- generateSessionToken from src/lib/auth.ts, with the 32 random bytes
from `crypto.getRandomValues` supplied as the argument: each byte becomes
two hex characters and the results are concatenated. -/
def generateSessionToken (bytes : List Nat) : List Char :=
  (bytes.map byteToHex).flatten

/-- createSession from src/lib/auth.ts: the value stored in the
admin_session cookie is exactly the generated session token. -/
def createSessionCookieValue (bytes : List Nat) : List Char :=
  generateSessionToken bytes

/-- isAuthenticated from src/lib/auth.ts: true exactly when the
admin_session cookie is present (and nonempty, i.e. truthy) and its value
has length 64.  `none` models an absent cookie. -/
def isAuthenticated (cookie : Option (List Char)) : Bool :=
  match cookie with
  | none => false
  | some s => ¬s.isEmpty && s.length == 64

/-- A character is a lowercase hex digit. -/
def isHexChar (c : Char) : Bool :=
  (48 ≤ c.toNat && c.toNat ≤ 57) || (97 ≤ c.toNat && c.toNat ≤ 102)

theorem lor_eq_zero_iff (x y : Nat) : x ||| y = 0 ↔ x = 0 ∧ y = 0 := by
  constructor
  · intro h
    constructor <;> apply Nat.eq_of_testBit_eq <;> intro i <;>
      have hb := congrArg (fun n => Nat.testBit n i) h <;>
      simp [Nat.testBit_or] at hb <;> simp [hb]
  · rintro ⟨rfl, rfl⟩; rfl

theorem ctcLoop_eq_zero (a : List Nat) :
    ∀ (b : List Nat) (acc : Nat), a.length = b.length →
      (ctcLoop acc a b = 0 ↔ acc = 0 ∧ a = b) := by
  induction a with
  | nil =>
    intro b acc hlen
    cases b with
    | nil => simp [ctcLoop]
    | cons y ys => simp at hlen
  | cons x xs ih =>
    intro b acc hlen
    cases b with
    | nil => simp at hlen
    | cons y ys =>
      simp only [List.length_cons, Nat.succ.injEq] at hlen
      rw [ctcLoop, ih ys _ hlen, lor_eq_zero_iff, Nat.xor_eq_zero]
      constructor
      · rintro ⟨⟨h1, h2⟩, rfl⟩; exact ⟨h1, by rw [h2]⟩
      · rintro ⟨h1, h2⟩
        have hx : x = y := by injection h2
        have hxs : xs = ys := by injection h2
        exact ⟨⟨h1, hx⟩, hxs⟩

theorem constantTimeCompare_eq_true_iff (a b : List Nat) :
    constantTimeCompare a b = true ↔ a = b := by
  unfold constantTimeCompare
  by_cases hlen : a.length = b.length
  · simp only [hlen, ne_eq, not_true_eq_false, if_false]
    rw [beq_iff_eq, ctcLoop_eq_zero a b 0 hlen]
    constructor
    · rintro ⟨_, h⟩; exact h
    · intro h; exact ⟨rfl, h⟩
  · simp only [ne_eq, hlen, not_false_eq_true, if_true]
    constructor
    · intro h; exact Bool.noConfusion h
    · intro h; exact absurd (congrArg List.length h) hlen

/-- C4: validatePassword returns true exactly when the two code-unit
sequences are equal (hence false whenever they differ in length or in any
character), and the number of comparison-loop iterations is determined by
the two lengths alone — in particular it is independent of the position of
the first mismatch. -/
theorem validatePassword_correct_and_constant_time (a b : List Nat) :
    (validatePassword a b = true ↔ a = b) ∧
    (∀ a' b' : List Nat, a'.length = a.length → b'.length = b.length →
      ctcSteps a' b' = ctcSteps a b) := by
  refine ⟨constantTimeCompare_eq_true_iff a b, ?_⟩
  intro a' b' ha hb
  unfold ctcSteps
  rw [ha, hb]

/-- Concrete instance of the constant-time claim: chosen inputs of equal
length with a mismatch at different positions take the same number of
steps, and validatePassword decides equality on them. -/
theorem validatePassword_correct_and_constant_time_witness :
    (validatePassword [104, 105] [104, 105] = true ↔
      ([104, 105] : List Nat) = [104, 105]) ∧
    ctcSteps [9, 2, 3] [1, 2, 4] = ctcSteps [1, 2, 3] [1, 2, 3] :=
  ⟨(validatePassword_correct_and_constant_time [104, 105] [104, 105]).1,
   (validatePassword_correct_and_constant_time [1, 2, 3] [1, 2, 3]).2
     [9, 2, 3] [1, 2, 4] (by decide) (by decide)⟩

theorem byteToHex_length (b : Nat) : (byteToHex b).length = 2 := by
  unfold byteToHex
  by_cases h : b < 16 <;> simp [h]

theorem byteToHex_hex (b : Nat) (hb : b < 256) :
    ∀ c ∈ byteToHex b, isHexChar c = true := by
  have hdig : ∀ n : Nat, n < 16 → isHexChar (hexDigit n) = true := by
    intro n hn
    interval_cases n <;> decide
  intro c hc
  unfold byteToHex at hc
  by_cases h : b < 16
  · simp [h] at hc
    rcases hc with rfl | rfl
    · decide
    · exact hdig b h
  · simp [h] at hc
    rcases hc with rfl | rfl
    · exact hdig (b / 16) (by omega)
    · exact hdig (b % 16) (by omega)

theorem generateSessionToken_length (bytes : List Nat) :
    (generateSessionToken bytes).length = 2 * bytes.length := by
  unfold generateSessionToken
  induction bytes with
  | nil => simp
  | cons b bs ih =>
    simp only [List.map_cons, List.flatten_cons, List.length_append, ih,
      byteToHex_length, List.length_cons]
    omega

theorem isAuthenticated_some (s : List Char) :
    isAuthenticated (some s) = true ↔ s.length = 64 := by
  cases s with
  | nil => simp [isAuthenticated]
  | cons c cs => simp [isAuthenticated, List.isEmpty]

/-- C9: isAuthenticated is a pure predicate over cookie presence and
length (true exactly when the cookie is present with value length 64, for
any content), and a cookie issued by createSession from 32 random bytes is
a 64-character lowercase-hex string, hence always authenticates. -/
theorem session_roundtrip_and_shape (cookie : Option (List Char))
    (bytes : List Nat) (hlen : bytes.length = 32)
    (hbyte : ∀ b ∈ bytes, b < 256) :
    (isAuthenticated cookie = true ↔
      ∃ s, cookie = some s ∧ s.length = 64) ∧
    (createSessionCookieValue bytes).length = 64 ∧
    (∀ c ∈ createSessionCookieValue bytes, isHexChar c = true) ∧
    isAuthenticated (some (createSessionCookieValue bytes)) = true := by
  have hctlen : (createSessionCookieValue bytes).length = 64 := by
    unfold createSessionCookieValue
    rw [generateSessionToken_length, hlen]
  refine ⟨?_, hctlen, ?_, (isAuthenticated_some _).mpr hctlen⟩
  · cases cookie with
    | none => simp [isAuthenticated]
    | some s =>
      rw [isAuthenticated_some]
      constructor
      · intro h; exact ⟨s, rfl, h⟩
      · rintro ⟨t, ht, h64⟩
        have hts := Option.some.inj ht
        rw [hts]
        exact h64
  · intro c hc
    unfold createSessionCookieValue generateSessionToken at hc
    simp only [List.mem_flatten, List.mem_map] at hc
    obtain ⟨l, ⟨b, hb, rfl⟩, hcl⟩ := hc
    exact byteToHex_hex b (hbyte b hb) c hcl

/-- Concrete instance of the session round-trip: 32 zero bytes produce the
64-character cookie of zeros, which authenticates; an absent cookie does
not. -/
theorem session_roundtrip_and_shape_witness :
    (isAuthenticated none = true ↔
      ∃ s, (none : Option (List Char)) = some s ∧ s.length = 64) ∧
    isAuthenticated (some (createSessionCookieValue (List.replicate 32 0))) = true :=
  ⟨(session_roundtrip_and_shape none (List.replicate 32 0) (by decide)
      (by intro b hb; simp at hb; omega)).1,
   (session_roundtrip_and_shape none (List.replicate 32 0) (by decide)
      (by intro b hb; simp at hb; omega)).2.2.2⟩

/-! ### Token provider (src/lib/google.ts, getAccessToken)

The JWT construction, RS256 signing and the HTTPS exchange against the
OAuth endpoint are abstracted into an `exchange` function from the
service-account credential to the token endpoint response; the cache logic
and expiry arithmetic are embedded literally.  Times are milliseconds as
returned by Date.now(). -/

/-- The module-level tokenCache slot: a bearer token with its cached
expiry time in milliseconds. -/
structure TokenCache where
  token : String
  expiry : Int
deriving DecidableEq

/-- Body of the OAuth token endpoint response used by getAccessToken. -/
structure TokenData where
  access_token : String
  expires_in : Int
deriving DecidableEq

/-- The cache-miss path of getAccessToken: derive a token from the
credential via the JWT exchange and cache it with expiry
`now + (expires_in - 300) * 1000` (a five-minute safety buffer). -/
def deriveToken (serviceAccountJson : String) (now : Int)
    (exchange : String → Except Unit TokenData) :
    Except Unit (String × Option TokenCache) :=
  match exchange serviceAccountJson with
  | .error e => .error e
  | .ok td =>
    .ok (td.access_token,
      some ⟨td.access_token, now + (td.expires_in - 300) * 1000⟩)

/-- getAccessToken from src/lib/google.ts (REST variant), in state-passing
form: takes the current cache slot and the current time, returns the
token handed to the caller together with the cache slot left behind.
The cached token is returned whenever the slot is filled and unexpired;
the credential plays no part in the cache check. -/
def getAccessToken (serviceAccountJson : String) (cache : Option TokenCache)
    (now : Int) (exchange : String → Except Unit TokenData) :
    Except Unit (String × Option TokenCache) :=
  match cache with
  | some c =>
    if now < c.expiry then .ok (c.token, some c)
    else deriveToken serviceAccountJson now exchange
  | none => deriveToken serviceAccountJson now exchange

/-- An exchange in which each credential derives its own distinct token. -/
def exchangePerCredential : String → Except Unit TokenData :=
  fun cred => .ok ⟨"tok-" ++ cred, 3600⟩

/-- C3 counterexample: the cache is a single slot not keyed by any
fingerprint of the credential.  A first call with credential "credA"
caches "tok-credA"; a later call with the different credential "credB",
made while the cached token is unexpired, receives "tok-credA" — a token
cached for another credential — instead of the token derived from it,
"tok-credB". -/
theorem token_cache_not_keyed_counterexample :
    getAccessToken "credA" none 0 exchangePerCredential =
      .ok ("tok-credA", some ⟨"tok-credA", 3300000⟩) ∧
    getAccessToken "credB" (some ⟨"tok-credA", 3300000⟩) 1000
        exchangePerCredential =
      .ok ("tok-credA", some ⟨"tok-credA", 3300000⟩) ∧
    exchangePerCredential "credB" = .ok ⟨"tok-credB", 3600⟩ ∧
    "tok-credA" ≠ "tok-credB" := by
  refine ⟨rfl, ?_, rfl, by decide⟩
  rfl

/-- C3 as amended: the provider caches the bearer token in a single
process-wide slot with no credential fingerprint.  Any call made while
the current time is before the cached expiry (the stated expiry minus the
300-second safety margin, applied when the slot was filled) returns the
identical cached token without re-deriving — regardless of which
credential it passes; a call at or after that expiry (or with an empty
slot) derives a new token through the exchange for that credential and caches it
with expiry `now + (expires_in - 300) * 1000`. -/
theorem token_cache_amended (sa sa2 : String) (c : TokenCache) (now now2 : Int)
    (exchange : String → Except Unit TokenData) (td : TokenData) :
    (now < c.expiry →
      getAccessToken sa (some c) now exchange = .ok (c.token, some c)) ∧
    (¬now2 < c.expiry → exchange sa2 = .ok td →
      getAccessToken sa2 (some c) now2 exchange =
        .ok (td.access_token,
          some ⟨td.access_token, now2 + (td.expires_in - 300) * 1000⟩)) ∧
    (exchange sa = .ok td →
      getAccessToken sa none now exchange =
        .ok (td.access_token,
          some ⟨td.access_token, now + (td.expires_in - 300) * 1000⟩)) := by
  refine ⟨?_, ?_, ?_⟩
  · intro h
    simp [getAccessToken, h]
  · intro h hx
    simp [getAccessToken, h, deriveToken, hx]
  · intro hx
    simp [getAccessToken, deriveToken, hx]

/-- Concrete instance of the amended token-cache behaviour: a hit before
expiry returns the cached token unchanged; a call after expiry re-derives
and re-caches. -/
theorem token_cache_amended_witness :
    getAccessToken "credA" (some ⟨"tokX", 500⟩) 100 exchangePerCredential =
      .ok ("tokX", some ⟨"tokX", 500⟩) ∧
    getAccessToken "credA" (some ⟨"tokX", 500⟩) 500 exchangePerCredential =
      .ok ("tok-credA", some ⟨"tok-credA", 3300500⟩) :=
  ⟨(token_cache_amended "credA" "credA" ⟨"tokX", 500⟩ 100 500
      exchangePerCredential ⟨"tok-credA", 3600⟩).1 (by decide),
   (token_cache_amended "credA" "credA" ⟨"tokX", 500⟩ 100 500
      exchangePerCredential ⟨"tok-credA", 3600⟩).2.1 (by decide) rfl⟩

/-! ### Drive helpers (src/lib/google.ts, REST variant)

Each helper is embedded as a function of an environment that supplies the
outcomes of the REST calls the source issues, and returns its result
together with the trace of Drive calls it made, in order. -/

/-- A folder record as returned by the Drive files search. -/
structure DriveFile where
  id : String
  fileName : String
deriving DecidableEq

/-- A Drive REST call issued by the helpers: the folder search by name
and parent, a folder creation under a parent, a multipart file creation,
or the follow-up anyone-reader permission request on a file. -/
inductive DriveCall
  | searchFolders (folderName parentId : String)
  | createFolder (parentId folderName : String)
  | createFile (folderId filename : String)
  | setPermission (fileId : String)
deriving DecidableEq

/-- True for the characters the slug regex `[^a-z0-9]` does NOT match:
lowercase ASCII letters and digits. -/
def isLowerAlnum (c : Char) : Bool :=
  (97 ≤ c.toNat && c.toNat ≤ 122) || (48 ≤ c.toNat && c.toNat ≤ 57)

/-- Global replacement of `[^a-z0-9]+` by a hyphen: each maximal run of
characters outside `[a-z0-9]` collapses to a single hyphen.  The flag
records whether the previous character was consumed into a run already
replaced. -/
def collapseNonAlnum (inRun : Bool) : List Char → List Char
  | [] => []
  | c :: cs =>
    if isLowerAlnum c then c :: collapseNonAlnum false cs
    else if inRun then collapseNonAlnum true cs
    else Char.ofNat 45 :: collapseNonAlnum true cs

/-- Removal of a leading hyphen, as matched by the `^-` alternative of the
edge-stripping regex. -/
def dropLeadingHyphen : List Char → List Char
  | c :: cs => if c = Char.ofNat 45 then cs else c :: cs
  | [] => []

/-- Removal of a trailing hyphen, as matched by the `-$` alternative of
the edge-stripping regex. -/
def dropTrailingHyphen (l : List Char) : List Char :=
  (dropLeadingHyphen l.reverse).reverse

/-- The submitter-name slug from getOrCreateSubmissionFolder: the name
lowercased, every run of non-alphanumeric characters replaced by one
hyphen, and a leading and trailing hyphen stripped. -/
def slug (s : String) : String :=
  ⟨dropTrailingHyphen (dropLeadingHyphen
    (collapseNonAlnum false (s.data.map Char.toLower)))⟩

/-- Environment for getOrCreateSubmissionFolder: the folder-search
response and, for each (parent, name) pair, the outcome of a
createDriveFolder call. -/
structure FolderEnv where
  searchRes : Except Unit (List DriveFile)
  createRes : String → String → Except Unit String

/-- getOrCreateSubmissionFolder from src/lib/google.ts: searches the root
for a folder named after the client; reuses the first match or creates
the client folder when none exists; then always creates a submission
subfolder named `{slug}-{date}` under the client folder.  `date` stands
for `new Date().toISOString().split('T')[0]`. -/
def getOrCreateSubmissionFolder (env : FolderEnv)
    (rootFolderId clientName submitterName date : String) :
    Except Unit String × List DriveCall :=
  match env.searchRes with
  | .error _ => (.error (), [.searchFolders clientName rootFolderId])
  | .ok files =>
    let step2 : Except Unit String × List DriveCall :=
      match files with
      | f :: _ => (.ok f.id, [.searchFolders clientName rootFolderId])
      | [] =>
        match env.createRes rootFolderId clientName with
        | .error _ =>
          (.error (), [.searchFolders clientName rootFolderId,
            .createFolder rootFolderId clientName])
        | .ok cid =>
          (.ok cid, [.searchFolders clientName rootFolderId,
            .createFolder rootFolderId clientName])
    match step2 with
    | (.error _, effs) => (.error (), effs)
    | (.ok clientFolderId, effs) =>
      let folderName := slug submitterName ++ "-" ++ date
      match env.createRes clientFolderId folderName with
      | .error _ =>
        (.error (), effs ++ [.createFolder clientFolderId folderName])
      | .ok sid =>
        (.ok sid, effs ++ [.createFolder clientFolderId folderName])

/-- C7: when the client-name folder already exists (the search returns at
least one match), resolving the destination folder reuses that folder —
the trace contains no creation of the client folder — and issues exactly
one folder creation: a new submission subfolder under the found client
folder, named `{slug submitterName}-{date}`. -/
theorem submission_folder_reuses_client_folder (env : FolderEnv)
    (root client submitter date sid : String) (f : DriveFile)
    (rest : List DriveFile)
    (hsearch : env.searchRes = .ok (f :: rest))
    (hcreate : env.createRes f.id (slug submitter ++ "-" ++ date) = .ok sid) :
    getOrCreateSubmissionFolder env root client submitter date =
      (.ok sid,
        [.searchFolders client root,
         .createFolder f.id (slug submitter ++ "-" ++ date)]) := by
  simp [getOrCreateSubmissionFolder, hsearch, hcreate]

/-- Concrete instance of the folder-reuse behaviour, also evaluating the
slug on a name with uppercase letters, punctuation and trailing
separators. -/
theorem submission_folder_reuses_client_folder_witness :
    slug "John  O.Brien " = "john-o-brien" ∧
    getOrCreateSubmissionFolder
      ⟨.ok [⟨"cid0", "The Fix"⟩], fun p n =>
        if p = "cid0" && n = "john-o-brien-2026-10-11" then .ok "sub0"
        else .error ()⟩
      "root0" "The Fix" "John  O.Brien " "2026-10-11" =
      (.ok "sub0",
        [.searchFolders "The Fix" "root0",
         .createFolder "cid0" "john-o-brien-2026-10-11"]) :=
  ⟨by decide,
   submission_folder_reuses_client_folder _ "root0" "The Fix"
     "John  O.Brien " "2026-10-11" "sub0" ⟨"cid0", "The Fix"⟩ []
     rfl rfl⟩

/-- Environment for uploadFileToDrive: the outcome of the multipart file
creation (the created file id on success) and whether the follow-up
permission request responds ok. -/
structure UploadEnv where
  createResp : Except Unit String
  permOk : Bool

/-- uploadFileToDrive from src/lib/google.ts (REST variant): throws when
the multipart creation fails; on success issues the anyone-reader
permission request, logs but otherwise ignores its failure, and returns
the file id with the derived view URL. -/
def uploadFileToDrive (env : UploadEnv) (folderId filename : String) :
    Except Unit (String × String) × List DriveCall :=
  match env.createResp with
  | .error _ => (.error (), [.createFile folderId filename])
  | .ok fileId =>
    (.ok (fileId, "https://drive.google.com/uc?id=" ++ fileId),
      [.createFile folderId filename, .setPermission fileId])

/-- C10: a failed permission request does not fail the upload — whenever
the file creation succeeds, uploadFileToDrive returns the id and derived
view URL whatever the permission response was; it returns the error
exactly when the creation itself fails. -/
theorem upload_tolerates_permission_failure (env : UploadEnv)
    (folderId filename : String) :
    (∀ fid, env.createResp = .ok fid →
      (uploadFileToDrive env folderId filename).1 =
        .ok (fid, "https://drive.google.com/uc?id=" ++ fid)) ∧
    (env.createResp = .error () →
      (uploadFileToDrive env folderId filename).1 = .error ()) := by
  constructor
  · intro fid h
    simp [uploadFileToDrive, h]
  · intro h
    simp [uploadFileToDrive, h]

/-- Concrete instance: with the permission request failing (permOk =
false) but the creation succeeding, the upload still returns the id and
view URL. -/
theorem upload_tolerates_permission_failure_witness :
    (uploadFileToDrive ⟨.ok "fileX", false⟩ "folder1" "a.jpg").1 =
      .ok ("fileX", "https://drive.google.com/uc?id=fileX") :=
  (upload_tolerates_permission_failure ⟨.ok "fileX", false⟩
    "folder1" "a.jpg").1 "fileX" rfl

/-! ### Submissions dashboard (src/routes/api/submissions/+server.ts)

The GET handler maps sheet rows to submission records carrying a
1-indexed row number, filters by status, and sorts by timestamp
descending; the PATCH handler validates and updates one status cell.
`tsVal` abstracts `new Date(s).getTime()`. -/

/-- An HTTP JSON response: status code, the success flag, and the message
or error string of the body. -/
structure ApiResponse where
  status : Nat
  success : Bool
  body : String
deriving DecidableEq

/-- JavaScript truthiness of a nullable string: false for null and for
the empty string. -/
def truthyStr : Option String → Bool
  | none => false
  | some s => s != ""

/-- JavaScript truthiness of a nullable number: false for null and 0. -/
def truthyInt : Option Int → Bool
  | none => false
  | some n => n != 0

/-- A submission record as produced by the GET handler, one per data row
of the sheet. -/
structure Submission where
  rowIndex : Nat
  timestamp : String
  name : String
  email : String
  phoneExtension : String
  role : String
  department : String
  yearsExperience : String
  specialty : String
  credentials : String
  favoriteService : String
  personalQuote : String
  bioShort : String
  bioFull : String
  profilePhotoUrl : String
  additionalImagesUrls : String
  anythingElse : String
  extraImagesUrls : String
  status : String
deriving DecidableEq

/-- Column access `row[i] || ''`. -/
def getCol (row : List String) (i : Nat) : String :=
  row.getD i ""

/-- The mapping from one sheet row (and its 1-indexed sheet row number)
to a submission record; column R (row 17, defaulting to New when absent
or empty) is the status. -/
def subOfRow (idx : Nat) (row : List String) : Submission where
  rowIndex := idx
  timestamp := getCol row 0
  name := getCol row 1
  email := getCol row 2
  phoneExtension := getCol row 3
  role := getCol row 4
  department := getCol row 5
  yearsExperience := getCol row 6
  specialty := getCol row 7
  credentials := getCol row 8
  favoriteService := getCol row 9
  personalQuote := getCol row 10
  bioShort := getCol row 11
  bioFull := getCol row 12
  profilePhotoUrl := getCol row 13
  additionalImagesUrls := getCol row 14
  anythingElse := getCol row 15
  extraImagesUrls := getCol row 16
  status := if getCol row 17 = "" then "New" else getCol row 17

/-- The indexed map over the data rows: the row at position `i` of the
slice after the header receives rowIndex `i + 2` (1-indexed, header
skipped). -/
def mkSubsAux : Nat → List (List String) → List Submission
  | _, [] => []
  | i, row :: rest => subOfRow (i + 2) row :: mkSubsAux (i + 1) rest

/-- data.slice(1).map((row, index) => ({rowIndex: index + 2, ...})) from
the GET handler. -/
def mkSubmissions (data : List (List String)) : List Submission :=
  mkSubsAux 0 (data.drop 1)

/-- The comparator `(a, b) => new Date(b.timestamp).getTime() - new
Date(a.timestamp).getTime()` as an ordering relation: descending by the
timestamp value. -/
def tsSortRel (tsVal : String → Int) (a b : Submission) : Prop :=
  tsVal b.timestamp ≤ tsVal a.timestamp

instance (tsVal : String → Int) : DecidableRel (tsSortRel tsVal) :=
  fun a b => inferInstanceAs (Decidable (tsVal b.timestamp ≤ tsVal a.timestamp))

/-- The submission list computed by the GET handler: map rows to records,
filter by the status query parameter when truthy, sort by timestamp
descending. -/
def getSubmissions (tsVal : String → Int) (statusFilter : Option String)
    (data : List (List String)) : List Submission :=
  List.insertionSort (tsSortRel tsVal)
    (if truthyStr statusFilter then
      (mkSubmissions data).filter (fun s => s.status == statusFilter.getD "")
    else mkSubmissions data)

/-- A Sheets call issued by the handlers. -/
inductive SheetCall
  | updateCell (range value : String)
deriving DecidableEq

/-- The statuses the PATCH handler accepts. -/
def validStatuses : List String := ["New", "Reviewed", "Added"]

/-- The body of a PATCH /api/submissions request. -/
structure PatchBody where
  rowIndex : Option Int
  status : Option String

/-- The PATCH handler from src/routes/api/submissions/+server.ts:
auth gate, presence check on rowIndex and status, membership check of
status in validStatuses, configuration check, then a single
updateSheetCell call on `Team Members!R{rowIndex}`. -/
def patchHandler (authed : Bool) (body : PatchBody) (cfgOk : Bool)
    (updateRes : Except Unit Unit) : ApiResponse × List SheetCall :=
  if authed = false then (⟨401, false, "Unauthorized"⟩, [])
  else if truthyInt body.rowIndex = false ∨ truthyStr body.status = false then
    (⟨400, false, "Row index and status required"⟩, [])
  else if body.status.getD "" ∉ validStatuses then
    (⟨400, false, "Invalid status"⟩, [])
  else if cfgOk = false then
    (⟨500, false, "Service not configured"⟩, [])
  else
    ((match updateRes with
      | .error _ => ⟨500, false, "Failed to update status"⟩
      | .ok _ => ⟨200, true, ""⟩),
     [SheetCall.updateCell
        ("Team Members!R" ++ toString (body.rowIndex.getD 0))
        (body.status.getD "")])

/-- C5: an authenticated PATCH whose status value is not one of the valid
statuses (New, Reviewed, Added) gets a 400 response and issues no
spreadsheet write; and any update call the handler ever issues carries a
status that passed the validity check. -/
theorem patch_invalid_status_rejected (authed : Bool) (body : PatchBody)
    (cfgOk : Bool) (updateRes : Except Unit Unit) :
    (authed = true →
      (∀ s, body.status = some s → s ∉ validStatuses) →
      (patchHandler authed body cfgOk updateRes).1.status = 400 ∧
      (patchHandler authed body cfgOk updateRes).2 = []) ∧
    (∀ r v, SheetCall.updateCell r v ∈
        (patchHandler authed body cfgOk updateRes).2 →
      v ∈ validStatuses) := by
  constructor
  · intro ha hinv
    subst ha
    by_cases hgate : truthyInt body.rowIndex = false ∨
        truthyStr body.status = false
    · simp [patchHandler, hgate]
    · obtain ⟨s, hs⟩ : ∃ s, body.status = some s := by
        rcases h : body.status with _ | s
        · exact absurd (Or.inr (by simp [truthyStr, h])) hgate
        · exact ⟨s, rfl⟩
      have hnot : body.status.getD "" ∉ validStatuses := by
        simp only [hs, Option.getD_some]
        exact hinv s hs
      simp [patchHandler, hgate, hnot]
  · intro r v hmem
    unfold patchHandler at hmem
    split_ifs at hmem with h1 h2 h3 h4 <;>
      first
        | (simp only [List.mem_singleton, SheetCall.updateCell.injEq] at hmem
           rw [hmem.2]
           exact h3)
        | simp at hmem

/-- Concrete instance: an authenticated PATCH with status "Bogus" is
rejected with 400 and no write. -/
theorem patch_invalid_status_rejected_witness :
    (patchHandler true ⟨some 3, some "Bogus"⟩ true (.ok ())).1.status = 400 ∧
    (patchHandler true ⟨some 3, some "Bogus"⟩ true (.ok ())).2 = [] :=
  (patch_invalid_status_rejected true ⟨some 3, some "Bogus"⟩ true (.ok ())).1
    rfl
    (by
      intro s hs
      have h := (Option.some.inj hs).symm
      rw [h]
      decide)

theorem mkSubsAux_getElem (k : Nat) (rows : List (List String)) :
    ∀ i : Nat, (mkSubsAux k rows)[i]? =
      (rows[i]?).map (fun row => subOfRow (k + i + 2) row) := by
  induction rows generalizing k with
  | nil => intro i; simp [mkSubsAux]
  | cons row rest ih =>
    intro i
    cases i with
    | zero => simp [mkSubsAux]
    | succ j =>
      have harith : k + 1 + j + 2 = k + (j + 1) + 2 := by omega
      simp only [mkSubsAux, List.getElem?_cons_succ, ih (k + 1) j, harith]

/-- C6: the GET handler pairs the i-th data row (0-indexed after the
header) with rowIndex i + 2; every submission surviving status filtering
and timestamp sorting still carries the rowIndex of its own source row
(its fields are those of the snapshot row at sheet position rowIndex);
and an authenticated PATCH with that rowIndex and a valid status issues
exactly one update, of the status cell `Team Members!R{rowIndex}`. -/
theorem rowIndex_stable (data : List (List String)) (tsVal : String → Int)
    (statusFilter : Option String) :
    (∀ i : Nat, (mkSubmissions data)[i]? =
      ((data.drop 1)[i]?).map (fun row => subOfRow (i + 2) row)) ∧
    (∀ i : Nat, ∀ s, (mkSubmissions data)[i]? = some s →
      s.rowIndex = i + 2) ∧
    (∀ s ∈ getSubmissions tsVal statusFilter data,
      ∃ row, (data.drop 1)[s.rowIndex - 2]? = some row ∧
        s = subOfRow s.rowIndex row) ∧
    (∀ (r : Int) (st : String) (updateRes : Except Unit Unit),
      r ≠ 0 → st ∈ validStatuses →
      (patchHandler true ⟨some r, some st⟩ true updateRes).2 =
        [SheetCall.updateCell ("Team Members!R" ++ toString r) st]) := by
  have hget : ∀ i : Nat, (mkSubmissions data)[i]? =
      ((data.drop 1)[i]?).map (fun row => subOfRow (i + 2) row) := by
    intro i
    have h := mkSubsAux_getElem 0 (data.drop 1) i
    simpa [mkSubmissions] using h
  refine ⟨hget, ?_, ?_, ?_⟩
  · intro i s hs
    rw [hget i] at hs
    rcases h : (data.drop 1)[i]? with _ | row
    · rw [h] at hs; simp at hs
    · rw [h] at hs
      rw [Option.map_some'] at hs
      rw [(Option.some.inj hs).symm]
      rfl
  · intro s hs
    have hmem : s ∈ mkSubmissions data := by
      unfold getSubmissions at hs
      have h1 := (List.perm_insertionSort (tsSortRel tsVal) _).mem_iff.mp hs
      by_cases hf : truthyStr statusFilter = true
      · rw [if_pos hf] at h1
        exact (List.mem_filter.mp h1).1
      · rw [if_neg hf] at h1
        exact h1
    obtain ⟨i, hi⟩ := List.mem_iff_getElem?.mp hmem
    rw [hget i] at hi
    rcases h : (data.drop 1)[i]? with _ | row
    · rw [h] at hi; simp at hi
    · rw [h] at hi
      rw [Option.map_some'] at hi
      have hsub : s = subOfRow (i + 2) row := (Option.some.inj hi).symm
      have hidx : s.rowIndex = i + 2 := by
        rw [hsub]
        rfl
      have hii : s.rowIndex - 2 = i := by omega
      refine ⟨row, ?_, ?_⟩
      · rw [hii]; exact h
      · rw [hidx]; exact hsub
  · intro r st updateRes hr hst
    have hne : st ≠ "" := by
      intro hrfl
      rw [hrfl] at hst
      simp [validStatuses] at hst
    have hauth : ¬((true : Bool) = false) := by simp
    have hgate : ¬(truthyInt (some r) = false ∨ truthyStr (some st) = false) := by
      push_neg
      refine ⟨?_, ?_⟩
      · simp [truthyInt, hr]
      · simp [truthyStr, hne]
    have hvs : ¬(((some st : Option String).getD "") ∉ validStatuses) := by
      simpa using hst
    simp only [patchHandler]
    rw [if_neg hauth, if_neg hgate, if_neg hvs, if_neg hauth]
    rfl

/-- Concrete instance of rowIndex stability: on a two-row snapshot the
second data row receives rowIndex 3, and an authenticated valid PATCH for
row 4 updates exactly cell R4. -/
theorem rowIndex_stable_witness :
    (mkSubmissions [["h"], ["2024-01-01", "Alice"], ["2024-01-02", "Bob"]])[1]? =
      ((([["h"], ["2024-01-01", "Alice"], ["2024-01-02", "Bob"]] :
          List (List String)).drop 1)[1]?).map (fun row => subOfRow (1 + 2) row) ∧
    (patchHandler true ⟨some 4, some "Reviewed"⟩ true (.ok ())).2 =
      [SheetCall.updateCell ("Team Members!R" ++ toString (4 : Int)) "Reviewed"] :=
  ⟨(rowIndex_stable [["h"], ["2024-01-01", "Alice"], ["2024-01-02", "Bob"]]
      (fun _ => 0) none).1 1,
   (rowIndex_stable [["h"], ["2024-01-01", "Alice"], ["2024-01-02", "Bob"]]
      (fun _ => 0) none).2.2.2 4 "Reviewed" (.ok ()) (by decide) (by decide)⟩

/-! ### Submission orchestrator (src/routes/api/upload/+server.ts, POST /api/submit)

The handler is embedded as a function of the request, the configuration,
and an environment giving the outcome of each external call; it returns
the HTTP response together with the ordered trace of storage calls it
issued. -/

/-- A storage call issued by the submit handler: the folder
lookup/creation step, one file upload, or the sheet append. -/
inductive StorageEffect
  | folderSetup (clientName submitterName : String)
  | upload (filename : String)
  | sheetAppend (range : String) (row : List String)
deriving DecidableEq

/-- An uploaded file as extracted from the multipart form data. -/
structure FileData where
  fname : String
  size : Nat
deriving DecidableEq

/-- The form fields and files of a POST /api/submit request; `none`
models an absent field. -/
structure SubmitReq where
  name : Option String
  email : Option String
  phone_extension : Option String
  role : Option String
  department : Option String
  years_experience : Option String
  specialty : Option String
  credentials : Option String
  favorite_service : Option String
  personal_quote : Option String
  bio_short : Option String
  bio_full : Option String
  anything_else : Option String
  profile_photo : Option FileData
  additional_images : List FileData
  extra_images : List FileData

/-- The environment variables the handler reads. -/
structure SubmitConfig where
  serviceAccountJson : Option String
  sheetId : Option String
  rootFolderId : Option String
  anthropicKey : Option String

/-- The configuration gate: serviceAccountJson, sheetId and rootFolderId
all truthy. -/
def configOk (cfg : SubmitConfig) : Bool :=
  truthyStr cfg.serviceAccountJson && truthyStr cfg.sheetId &&
    truthyStr cfg.rootFolderId

/-- Outcomes of the external calls a submission makes: the folder setup,
the k-th file upload (its view URL on success), the sheet append, and the
generateThankYou call. -/
structure SubmitEnv where
  timestamp : String
  folder : Except Unit String
  upload : Nat → Except Unit String
  appendRes : Except Unit Unit
  thankYou : Except Unit String

/-- Result of one of the sequential upload loops: the collected URLs (or
the first failure), the upload calls issued, and the next call index. -/
structure UploadOut where
  res : Except Unit (List String)
  effs : List StorageEffect
  next : Nat

/-- One upload loop of the handler (`for (const file of files) if
(file.size > 0) ...`): files of size zero are skipped; a failing upload
aborts the loop with the error; each issued upload is traced with its
prefixed filename. -/
def uploadFiles (up : Nat → Except Unit String) (tag : String) :
    Nat → List FileData → UploadOut
  | k, [] => ⟨.ok [], [], k⟩
  | k, f :: rest =>
    if f.size > 0 then
      match up k with
      | .error _ => ⟨.error (), [.upload (tag ++ f.fname)], k + 1⟩
      | .ok url =>
        let out := uploadFiles up tag (k + 1) rest
        ⟨out.res.map (fun urls => url :: urls),
          .upload (tag ++ f.fname) :: out.effs, out.next⟩
    else uploadFiles up tag k rest

/-- The static templated thank-you message the handler starts from. -/
def defaultThankYou (name : String) : String :=
  "Thank you, " ++ name ++
    "! We really appreciate you taking the time to share your information."

/-- The 18-column row appended to the sheet: timestamp, the thirteen form
fields, the profile-photo URL, the joined additional URLs, anything_else,
the joined extra URLs, and the initial status New. -/
def submitRow (req : SubmitReq) (timestamp profileUrl : String)
    (additionalUrls extraUrls : List String) : List String :=
  [timestamp, req.name.getD "", req.email.getD "", req.phone_extension.getD "",
   req.role.getD "", req.department.getD "", req.years_experience.getD "",
   req.specialty.getD "", req.credentials.getD "", req.favorite_service.getD "",
   req.personal_quote.getD "", req.bio_short.getD "", req.bio_full.getD "",
   profileUrl, String.intercalate ", " additionalUrls, req.anything_else.getD "",
   String.intercalate ", " extraUrls, "New"]

/-- POST /api/submit from src/routes/api/upload/+server.ts: configuration
gate; name/email and profile-photo validation; folder setup; profile
upload; the two sequential upload loops; sheet append; then the
thank-you message, replaced by the generated one only when an AI key is
configured and generateThankYou succeeds.  Any uncaught failure lands in
the outer catch, a 500 "Submission failed". -/
def submitHandler (cfg : SubmitConfig) (req : SubmitReq) (env : SubmitEnv) :
    ApiResponse × List StorageEffect :=
  if configOk cfg = false then
    (⟨500, false, "Service not configured"⟩, [])
  else if truthyStr req.name = false ∨ truthyStr req.email = false then
    (⟨400, false, "Name and email are required"⟩, [])
  else
    match req.profile_photo with
    | none => (⟨400, false, "Profile photo is required"⟩, [])
    | some photo =>
      match env.folder with
      | .error _ => (⟨500, false, "Submission failed"⟩,
          [.folderSetup "The Fix" (req.name.getD "")])
      | .ok _folderId =>
        match env.upload 0 with
        | .error _ => (⟨500, false, "Submission failed"⟩,
            [.folderSetup "The Fix" (req.name.getD ""),
             .upload ("profile-" ++ photo.fname)])
        | .ok profileUrl =>
          let addOut := uploadFiles env.upload "additional-" 1 req.additional_images
          match addOut.res with
          | .error _ => (⟨500, false, "Submission failed"⟩,
              .folderSetup "The Fix" (req.name.getD "") ::
              .upload ("profile-" ++ photo.fname) :: addOut.effs)
          | .ok additionalUrls =>
            let extOut := uploadFiles env.upload "extra-" addOut.next req.extra_images
            match extOut.res with
            | .error _ => (⟨500, false, "Submission failed"⟩,
                .folderSetup "The Fix" (req.name.getD "") ::
                .upload ("profile-" ++ photo.fname) ::
                (addOut.effs ++ extOut.effs))
            | .ok extraUrls =>
              let row := submitRow req env.timestamp profileUrl additionalUrls extraUrls
              let effs := StorageEffect.folderSetup "The Fix" (req.name.getD "") ::
                StorageEffect.upload ("profile-" ++ photo.fname) ::
                (addOut.effs ++ extOut.effs ++
                  [StorageEffect.sheetAppend "Team Members!A:R" row])
              match env.appendRes with
              | .error _ => (⟨500, false, "Submission failed"⟩, effs)
              | .ok _ =>
                let msg :=
                  if truthyStr cfg.anthropicKey = true then
                    match env.thankYou with
                    | .ok m => m
                    | .error _ => defaultThankYou (req.name.getD "")
                  else defaultThankYou (req.name.getD "")
                (⟨200, true, msg⟩, effs)

/-- C1: with the service configured, a submission missing name, email, or
the primary profile photo is rejected with a 400 validation failure and
the handler issues no storage call at all — no folder creation, no
upload, no sheet append. -/
theorem submit_missing_required_rejected (cfg : SubmitConfig)
    (req : SubmitReq) (env : SubmitEnv) (hcfg : configOk cfg = true)
    (hmiss : truthyStr req.name = false ∨ truthyStr req.email = false ∨
      req.profile_photo = none) :
    (submitHandler cfg req env).1.status = 400 ∧
    (submitHandler cfg req env).2 = [] := by
  have hc : ¬(configOk cfg = false) := by simp [hcfg]
  rcases hmiss with h | h | h
  · simp [submitHandler, hc, h]
  · simp [submitHandler, hc, h]
  · by_cases hg : truthyStr req.name = false ∨ truthyStr req.email = false
    · rcases hg with h2 | h2 <;> simp [submitHandler, hc, h2]
    · simp [submitHandler, hc, hg, h]

/-- A fully populated valid request: name, email and profile photo
present, one nonempty additional image, no extra images. -/
def reqStd : SubmitReq where
  name := some "Ann"
  email := some "ann@example.com"
  phone_extension := none
  role := some "Stylist"
  department := none
  years_experience := none
  specialty := none
  credentials := none
  favorite_service := none
  personal_quote := none
  bio_short := none
  bio_full := none
  anything_else := none
  profile_photo := some ⟨"p.jpg", 10⟩
  additional_images := [⟨"x.jpg", 5⟩]
  extra_images := []

/-- A configuration with Google credentials set and no AI key. -/
def cfgStd : SubmitConfig :=
  ⟨some "sa", some "sheet", some "root", none⟩

/-- An environment in which the folder setup and the profile upload (call
index 0) succeed and every later upload fails. -/
def envOneUploadFails : SubmitEnv where
  timestamp := "2026-10-11T00:00:00.000Z"
  folder := .ok "fid"
  upload := fun k => if k == 0 then .ok "https://drive.google.com/uc?id=p" else .error ()
  appendRes := .ok ()
  thankYou := .ok "Generated"

/-- Concrete instance: name absent, everything else fine — 400 and an
empty storage trace. -/
theorem submit_missing_required_rejected_witness :
    (submitHandler cfgStd { reqStd with name := none } envOneUploadFails).1.status = 400 ∧
    (submitHandler cfgStd { reqStd with name := none } envOneUploadFails).2 = [] :=
  submit_missing_required_rejected cfgStd { reqStd with name := none }
    envOneUploadFails rfl (Or.inl rfl)

/-- C2 counterexample: the failure of an individual (non-primary) file
upload is NOT tolerated.  With valid fields, a successful folder setup
and profile upload, and the single additional image failing to upload,
the handler returns 500 "Submission failed" — the submission does not
succeed — and the trace ends at the failed upload: no row (with or
without that file URL) is ever appended. -/
theorem submit_upload_failure_counterexample :
    (submitHandler cfgStd reqStd envOneUploadFails).1 =
      ⟨500, false, "Submission failed"⟩ ∧
    (submitHandler cfgStd reqStd envOneUploadFails).2 =
      [.folderSetup "The Fix" "Ann", .upload "profile-p.jpg",
       .upload "additional-x.jpg"] :=
  ⟨rfl, rfl⟩

/-- The upload phase of a submission hits a failure: the profile upload,
the additional-images loop, or the extra-images loop errors. -/
def uploadPhaseFails (env : SubmitEnv) (req : SubmitReq) : Prop :=
  env.upload 0 = .error () ∨
  (uploadFiles env.upload "additional-" 1 req.additional_images).res = .error () ∨
  (uploadFiles env.upload "extra-"
    (uploadFiles env.upload "additional-" 1 req.additional_images).next
    req.extra_images).res = .error ()

theorem uploadFiles_effs_are_uploads (up : Nat → Except Unit String)
    (tag : String) (fs : List FileData) :
    ∀ (k : Nat), ∀ e ∈ (uploadFiles up tag k fs).effs, ∃ fn, e = .upload fn := by
  induction fs with
  | nil => intro k e he; simp [uploadFiles] at he
  | cons f rest ih =>
    intro k e he
    by_cases hsz : f.size > 0
    · rw [uploadFiles, if_pos hsz] at he
      rcases h : up k with _ | url
      · rw [h] at he
        simp at he
        exact ⟨tag ++ f.fname, he⟩
      · rw [h] at he
        simp at he
        rcases he with rfl | he
        · exact ⟨tag ++ f.fname, rfl⟩
        · exact ih (k + 1) e he
    · rw [uploadFiles, if_neg hsz] at he
      exact ih k e he

/-- No sheet append can hide inside a list of pure upload effects. -/
theorem no_append_of_uploads (l : List StorageEffect)
    (h : ∀ e ∈ l, ∃ fn, e = StorageEffect.upload fn) (rng : String)
    (row : List String) : StorageEffect.sheetAppend rng row ∉ l := by
  intro hmem
  obtain ⟨fn, hfn⟩ := h _ hmem
  exact StorageEffect.noConfusion hfn

/-- C2 as amended: the submission is atomic in the failure direction —
when any issued file upload of a valid, configured submission fails (the
profile upload or any upload of the additional/extra loops), the handler
aborts with 500 "Submission failed" and appends no row at all; a file is
excluded from the appended row only by the size-zero skip, never by a
tolerated upload failure. -/
theorem submit_upload_failure_aborts (cfg : SubmitConfig) (req : SubmitReq)
    (env : SubmitEnv) (photo : FileData) (fid : String)
    (hcfg : configOk cfg = true) (hname : truthyStr req.name = true)
    (hemail : truthyStr req.email = true)
    (hphoto : req.profile_photo = some photo)
    (hfold : env.folder = .ok fid)
    (hfail : uploadPhaseFails env req) :
    (submitHandler cfg req env).1 = ⟨500, false, "Submission failed"⟩ ∧
    ∀ rng row,
      StorageEffect.sheetAppend rng row ∉ (submitHandler cfg req env).2 := by
  have hc : ¬(configOk cfg = false) := by simp [hcfg]
  have hg : ¬(truthyStr req.name = false ∨ truthyStr req.email = false) := by
    simp [hname, hemail]
  have hadds := uploadFiles_effs_are_uploads env.upload "additional-"
    req.additional_images 1
  have hexts := uploadFiles_effs_are_uploads env.upload "extra-"
    req.extra_images
    (uploadFiles env.upload "additional-" 1 req.additional_images).next
  rcases h0 : env.upload 0 with _ | purl
  · refine ⟨by simp [submitHandler, hc, hg, hphoto, hfold, h0], ?_⟩
    intro rng row
    simp [submitHandler, hc, hg, hphoto, hfold, h0]
  · rcases hadd : (uploadFiles env.upload "additional-" 1
        req.additional_images).res with _ | aurls
    · refine ⟨by simp [submitHandler, hc, hg, hphoto, hfold, h0, hadd], ?_⟩
      intro rng row hmem
      simp only [submitHandler] at hmem
      simp [hc, hg, hphoto, hfold, h0, hadd] at hmem
      exact no_append_of_uploads _ hadds rng row hmem
    · rcases hext : (uploadFiles env.upload "extra-"
          (uploadFiles env.upload "additional-" 1 req.additional_images).next
          req.extra_images).res with _ | eurls
      · refine ⟨by simp [submitHandler, hc, hg, hphoto, hfold, h0, hadd, hext], ?_⟩
        intro rng row hmem
        simp only [submitHandler] at hmem
        simp [hc, hg, hphoto, hfold, h0, hadd, hext] at hmem
        rcases hmem with h | h
        · exact no_append_of_uploads _ hadds rng row h
        · exact no_append_of_uploads _ hexts rng row h
      · exfalso
        rcases hfail with h | h | h
        · rw [h0] at h; exact Except.noConfusion h
        · rw [hadd] at h; exact Except.noConfusion h
        · rw [hext] at h; exact Except.noConfusion h

/-- Concrete instance of the amended claim: with the single additional
image failing to upload, the response is the 500 failure and no append
appears in the trace. -/
theorem submit_upload_failure_aborts_witness :
    (submitHandler cfgStd reqStd envOneUploadFails).1 =
      ⟨500, false, "Submission failed"⟩ ∧
    ∀ rng row, StorageEffect.sheetAppend rng row ∉
      (submitHandler cfgStd reqStd envOneUploadFails).2 :=
  submit_upload_failure_aborts cfgStd reqStd envOneUploadFails
    ⟨"p.jpg", 10⟩ "fid" rfl rfl rfl rfl rfl (Or.inr (Or.inl rfl))

/-- C8: once a valid, configured submission has reached the sheet append
successfully, a failing generateThankYou call — or an unconfigured AI
key — never fails the submission: the handler returns success carrying
the static templated thank-you message. -/
theorem submit_thankyou_fallback (cfg : SubmitConfig) (req : SubmitReq)
    (env : SubmitEnv) (photo : FileData) (fid purl : String)
    (aurls eurls : List String)
    (hcfg : configOk cfg = true) (hname : truthyStr req.name = true)
    (hemail : truthyStr req.email = true)
    (hphoto : req.profile_photo = some photo)
    (hfold : env.folder = .ok fid) (h0 : env.upload 0 = .ok purl)
    (hadd : (uploadFiles env.upload "additional-" 1
      req.additional_images).res = .ok aurls)
    (hext : (uploadFiles env.upload "extra-"
      (uploadFiles env.upload "additional-" 1 req.additional_images).next
      req.extra_images).res = .ok eurls)
    (happ : env.appendRes = .ok ())
    (hai : truthyStr cfg.anthropicKey = false ∨ env.thankYou = .error ()) :
    (submitHandler cfg req env).1 =
      ⟨200, true, defaultThankYou (req.name.getD "")⟩ := by
  have hc : ¬(configOk cfg = false) := by simp [hcfg]
  have hg : ¬(truthyStr req.name = false ∨ truthyStr req.email = false) := by
    simp [hname, hemail]
  rcases hai with h | h <;>
    simp [submitHandler, hc, hg, hphoto, hfold, h0, hadd, hext, happ, h]

/-- An environment where storage succeeds end to end but the
generateThankYou call throws. -/
def envThanksFails : SubmitEnv where
  timestamp := "2026-10-11T00:00:00.000Z"
  folder := .ok "fid"
  upload := fun _ => .ok "https://drive.google.com/uc?id=u"
  appendRes := .ok ()
  thankYou := .error ()

/-- A configuration with Google credentials and an AI key set. -/
def cfgWithKey : SubmitConfig :=
  ⟨some "sa", some "sheet", some "root", some "key"⟩

/-- Concrete instance: AI key configured, generateThankYou throws, the
append succeeded — the handler still returns success with the static
message for "Ann". -/
theorem submit_thankyou_fallback_witness :
    (submitHandler cfgWithKey reqStd envThanksFails).1 =
      ⟨200, true, defaultThankYou "Ann"⟩ :=
  submit_thankyou_fallback cfgWithKey reqStd envThanksFails
    ⟨"p.jpg", 10⟩ "fid" "https://drive.google.com/uc?id=u"
    ["https://drive.google.com/uc?id=u"] []
    rfl rfl rfl rfl rfl rfl rfl rfl rfl (Or.inr rfl)

end Forms
